import Mathlib

/-!
Shallow embedding of the wecom-task-bot backend core
(`src/backend/src/services/task-lifecycle.js`, `sync.js`,
`calendar-mapping.js`) and proofs about its specification.

Modelling conventions:
* JS strings are Lean `String`; `normalizeText` is trimming (the JS
  whitespace set is abstracted to space/tab/newline/carriage-return,
  which covers every value the program produces).
* Database DATETIME columns and parsed `Date` values are abstracted to
  `Option Int` (an epoch timestamp in milliseconds): `none` models a
  NULL / empty / unparseable value, `some t` a value that `toDateOrNull`
  parses to epoch time `t`.  This identifies "absent" with
  "unparseable", which is faithful for every value the program itself
  writes (SQLite `datetime(...)` strings or NULL).
* JS truthiness on string-valued fields: `undefined`/`null`/`""` are
  falsy, any other string is truthy.
* Fields of external JSON payloads that the code probes with
  `(x && x.userid) || x` are modelled by the inductive `JsField`
  (absent, a plain string, or an object with an optional `userid`);
  `String(object)` is the literal `"[object Object]"` as in JS.
-/

namespace WecomTaskBot

/-- Is `c` one of the whitespace characters relevant to `String.prototype.trim`
for the values this program handles. -/
def isJsSpace (c : Char) : Bool :=
  c = ' ' || c = '\t' || c = '\n' || c = '\r'

/-- Trim leading and trailing JS whitespace from a character list. -/
def trimChars (l : List Char) : List Char :=
  ((l.dropWhile isJsSpace).reverse.dropWhile isJsSpace).reverse

/-- JS `String(value).trim()` on a string value. -/
def jsTrim (s : String) : String :=
  ⟨trimChars s.data⟩

/-- Embeds `normalizeText` from `task-lifecycle.js` applied to a string value. -/
def normalizeTextS (s : String) : String :=
  jsTrim s

/-- Embeds `normalizeText` from `task-lifecycle.js` applied to a possibly
absent (`undefined`/`null`) string value. -/
def normalizeTextO : Option String → String
  | none => ""
  | some s => jsTrim s

/-- JS truthiness of a possibly absent string value. -/
def jsTruthy : Option String → Bool
  | none => false
  | some s => s ≠ ""

/-- JS `a || b` on possibly absent string values. -/
def jsOrO (a b : Option String) : Option String :=
  if jsTruthy a then a else b

/-- A row of the `tasks` table (see `src/backend/src/models/db.js`).
Columns that the schema allows to be NULL are `Option`-valued. -/
structure TaskRow where
  id : Nat
  wecom_schedule_id : String
  title : String
  description : String
  creator_userid : String
  executor_userid : String
  owner_userid : String
  owner_cal_id : String
  start_time : Option Int
  end_time : Option Int
  status : String
  completion_time : Option Int
  verify_time : Option Int
  completed_by_userid : Option String
  verified_by_userid : Option String
  reject_reason : Option String
  redo_count : Int
  last_reminder_kind : Option String
  last_reminder_at : Option Int
  updated_at : Option Int
deriving DecidableEq, Repr

/-- Embeds `toDateOrNull` from `task-lifecycle.js`: under the timestamp
abstraction (see the module docstring) parsing is the identity. -/
def toDateOrNull (v : Option Int) : Option Int := v

/-- Embeds `TASK_STATUS.PENDING`. -/
def STATUS_PENDING : String := "PENDING"

/-- Embeds `TASK_STATUS.WAITING_VERIFY`. -/
def STATUS_WAITING_VERIFY : String := "WAITING_VERIFY"

/-- Embeds `TASK_STATUS.COMPLETED`. -/
def STATUS_COMPLETED : String := "COMPLETED"

/-- Embeds `REMINDER_KIND.NONE`. -/
def KIND_NONE : String := "NONE"

/-- Embeds `REMINDER_KIND.DUE_SOON`. -/
def KIND_DUE_SOON : String := "DUE_SOON"

/-- Embeds `REMINDER_KIND.OVERDUE`. -/
def KIND_OVERDUE : String := "OVERDUE"

/-- One hour in milliseconds. -/
def hourMs : Int := 60 * 60 * 1000

/-- Embeds `canUserCompleteTask` from `task-lifecycle.js`. -/
def canUserCompleteTask (task : TaskRow) (userId : String) : Bool :=
  let normalizedUserId := normalizeTextS userId
  let executorId := normalizeTextS task.executor_userid
  let status := normalizeTextS task.status
  normalizedUserId ≠ "" && executorId ≠ "" &&
    normalizedUserId = executorId && status = STATUS_PENDING

/-- Embeds `canUserVerifyTask` from `task-lifecycle.js`. -/
def canUserVerifyTask (task : TaskRow) (userId : String)
    (globalVerifiers : List String) : Bool :=
  let normalizedUserId := normalizeTextS userId
  let creatorId := normalizeTextS task.creator_userid
  let status := normalizeTextS task.status
  let verifierSet := (globalVerifiers.map normalizeTextS).filter (fun s => s ≠ "")
  if normalizedUserId = "" ∨ status ≠ STATUS_WAITING_VERIFY then false
  else normalizedUserId = creatorId || verifierSet.contains normalizedUserId

/-- Embeds `getReminderKind` from `task-lifecycle.js`; `now` is epoch ms. -/
def getReminderKind (task : TaskRow) (now : Int) : String :=
  if normalizeTextS task.status ≠ STATUS_PENDING then KIND_NONE
  else
    match toDateOrNull task.end_time with
    | none => KIND_NONE
    | some endTime =>
      let diffMs := endTime - now
      if diffMs < 0 then KIND_OVERDUE
      else if diffMs ≤ 24 * hourMs then KIND_DUE_SOON
      else KIND_NONE

/-- Embeds `shouldSendReminder` from `task-lifecycle.js`. -/
def shouldSendReminder (task : TaskRow) (reminderKind : String) (now : Int)
    (cooldownHours : Int) : Bool :=
  if reminderKind = KIND_NONE then false
  else
    let previousKind := normalizeTextO task.last_reminder_kind
    if previousKind = "" ∨ previousKind ≠ reminderKind then true
    else
      match toDateOrNull task.last_reminder_at with
      | none => true
      | some previousReminderAt =>
        decide (now - previousReminderAt ≥ cooldownHours * hourMs)

/-- Embeds `isTaskOverdue` from `task-lifecycle.js`. -/
def isTaskOverdue (task : TaskRow) (now : Int) : Bool :=
  match toDateOrNull task.end_time with
  | none => false
  | some endTime =>
    if normalizeTextS task.status = STATUS_COMPLETED then false
    else decide (endTime < now)

/-- Embeds `isTaskDueSoon` from `task-lifecycle.js`. -/
def isTaskDueSoon (task : TaskRow) (now : Int) : Bool :=
  match toDateOrNull task.end_time with
  | none => false
  | some endTime =>
    if normalizeTextS task.status ≠ STATUS_PENDING then false
    else
      let diffMs := endTime - now
      decide (diffMs ≥ 0) && decide (diffMs ≤ 24 * hourMs)

/-- The task object `mapTaskRowToApi` returns: the row spread together
with the derived API fields. -/
structure ApiTask where
  row : TaskRow
  redo_count : Int
  can_complete : Bool
  can_verify : Bool
  is_due_soon : Bool
  is_overdue : Bool
deriving DecidableEq, Repr

/-- Embeds `mapTaskRowToApi` from `task-lifecycle.js`. -/
def mapTaskRowToApi (row : TaskRow) (now : Int) (currentUserId : String)
    (globalVerifiers : List String) : ApiTask :=
  { row := row
    redo_count := row.redo_count
    can_complete := canUserCompleteTask row (normalizeTextS currentUserId)
    can_verify := canUserVerifyTask row (normalizeTextS currentUserId) globalVerifiers
    is_due_soon := isTaskDueSoon row now
    is_overdue := isTaskOverdue row now }

/-- Embeds `Number(x.toFixed(2))` on the non-negative rational percentages the
KPI aggregation produces: round half up to two decimal places. -/
def round2 (q : ℚ) : ℚ :=
  (⌊q * 100 + 1 / 2⌋ : ℚ) / 100

/-- The summary object `buildTaskKpi` returns. -/
structure KpiSummary where
  total_tasks : Nat
  completed_tasks : Nat
  waiting_verify_tasks : Nat
  overdue_tasks : Nat
  due_soon_tasks : Nat
  completion_rate : ℚ
  on_time_rate : ℚ
deriving DecidableEq, Repr

/-- Embeds `buildTaskKpi` from `task-lifecycle.js`. -/
def buildTaskKpi (rows : List TaskRow) (now : Int) : KpiSummary :=
  let totalCount := rows.length
  let completedCount :=
    (rows.filter (fun t => normalizeTextS t.status = STATUS_COMPLETED)).length
  let waitingVerifyCount :=
    (rows.filter (fun t => normalizeTextS t.status = STATUS_WAITING_VERIFY)).length
  let overdueCount := (rows.filter (fun t => isTaskOverdue t now)).length
  let dueSoonCount := (rows.filter (fun t => isTaskDueSoon t now)).length
  let onTimeCompletedCount :=
    (rows.filter (fun t =>
      if normalizeTextS t.status ≠ STATUS_COMPLETED then false
      else
        match toDateOrNull (jsOrTime t.completion_time t.verify_time),
              toDateOrNull t.end_time with
        | some completionTime, some endTime => decide (completionTime ≤ endTime)
        | _, _ => false)).length
  { total_tasks := totalCount
    completed_tasks := completedCount
    waiting_verify_tasks := waitingVerifyCount
    overdue_tasks := overdueCount
    due_soon_tasks := dueSoonCount
    completion_rate :=
      if totalCount > 0 then round2 ((completedCount : ℚ) / (totalCount : ℚ) * 100) else 0
    on_time_rate :=
      if completedCount > 0 then
        round2 ((onTimeCompletedCount : ℚ) / (completedCount : ℚ) * 100)
      else 0 }
where
  /-- JS `item.completion_time || item.verify_time` under the timestamp
  abstraction: fall to the second operand when the first is absent. -/
  jsOrTime : Option Int → Option Int → Option Int
    | none, b => b
    | some a, _ => some a

/-- A user-bearing field of an external schedule payload, as probed by the
JS chain `(x && x.userid) || x || fallback`: the field may be absent,
a plain string, or an object carrying an optional `userid`. -/
inductive JsField where
  | absent
  | str (s : String)
  | obj (userid : Option String)
deriving DecidableEq, Repr

/-- Embeds `normalizeText((v && v.userid) || v || fallback)`: the value the sync
code derives from an organizer-like field `v` with fallback `fallback`
(JS `String(object)` prints `"[object Object]"`). -/
def fieldUserString : JsField → Option String → String
  | .absent, fallback => normalizeTextO fallback
  | .str s, fallback => if s = "" then normalizeTextO fallback else jsTrim s
  | .obj (some s), _ => if s = "" then "[object Object]" else jsTrim s
  | .obj none, _ => "[object Object]"

/-- An external schedule as returned by the calendar provider
(the fields `sync.js` reads). -/
structure Schedule where
  schedule_id : Option String
  summary : Option String
  description : Option String
  organizer : JsField
  creator_userid : Option String
  attendees : Option (List JsField)
  attendee : Option (List JsField)
  start_time : Option Int
  end_time : Option Int
  cal_id : Option String
  calendar_id : Option String
deriving Repr

/-- The attendee array `pickExecutor` iterates:
`Array.isArray(schedule.attendees) ? schedule.attendees
 : Array.isArray(schedule.attendee) ? schedule.attendee : []`. -/
def scheduleAttendees (s : Schedule) : List JsField :=
  match s.attendees with
  | some l => l
  | none => s.attendee.getD []

/-- Embeds `attendeeUserIds` inside `pickExecutor`:
`attendees.map((item) => normalizeText((item && item.userid) || item)).filter(Boolean)`. -/
def attendeeUserIds (s : Schedule) : List String :=
  ((scheduleAttendees s).map (fun item => fieldUserString item none)).filter
    (fun x => x ≠ "")

/-- The normalized organizer string computed both by `pickExecutor` and by
the `creator_userid` payload field of `syncScheduleTask`:
`normalizeText((schedule.organizer && schedule.organizer.userid) || schedule.organizer || schedule.creator_userid)`. -/
def organizerString (s : Schedule) : String :=
  fieldUserString s.organizer s.creator_userid

/-- Embeds `pickExecutor` from `sync.js` (`TaskService`). -/
def pickExecutor (s : Schedule) : String :=
  let organizer := organizerString s
  let ids := attendeeUserIds s
  match ids.find? (fun x => x ≠ organizer) with
  | some primaryAttendee => primaryAttendee
  | none =>
    match ids.head? with
    | some h => h
    | none => organizer

/-- The calendar target a schedule was fetched under
(`calendarContext` in `sync.js`). -/
structure CalendarContext where
  user_id : Option String
  cal_id : Option String
deriving Repr

/-- The `taskPayload` object built inside `syncScheduleTask`. -/
structure SyncTaskPayload where
  wecom_schedule_id : String
  title : String
  description : String
  creator_userid : String
  executor_userid : String
  owner_userid : String
  start_time : Int
  end_time : Int
  owner_cal_id : String
deriving DecidableEq, Repr

/-- Build the `taskPayload` object of `syncScheduleTask`. -/
def syncTaskPayload (s : Schedule) (ctx : CalendarContext) : SyncTaskPayload :=
  let executorUserId := pickExecutor s
  { wecom_schedule_id := normalizeTextO s.schedule_id
    title :=
      if normalizeTextO s.summary = "" then "未命名任务" else normalizeTextO s.summary
    description := normalizeTextO s.description
    creator_userid := organizerString s
    executor_userid := executorUserId
    owner_userid :=
      if normalizeTextO ctx.user_id = "" then executorUserId
      else normalizeTextO ctx.user_id
    start_time := s.start_time.getD 0
    end_time := s.end_time.getD 0
    owner_cal_id := normalizeTextO (jsOrO s.cal_id (jsOrO s.calendar_id ctx.cal_id)) }

/-- The result object of `syncScheduleTask`. -/
structure SyncResult where
  inserted : Bool
  updated : Bool
  skipped : Bool
  reason : Option String
deriving DecidableEq, Repr

/-- Embeds `getTaskByScheduleId`: `SELECT * FROM tasks WHERE wecom_schedule_id = ?`
over the table modelled as a row list. -/
def getTaskByScheduleId (db : List TaskRow) (sid : String) : Option TaskRow :=
  db.find? (fun t => t.wecom_schedule_id = sid)

/-- The row `syncScheduleTask` inserts when no task matches the schedule id
(`newId` models the autoincrement id, `now` the `datetime(now)` stamp;
absent columns are NULL and `redo_count` takes its schema default 0). -/
def syncInsertRow (p : SyncTaskPayload) (newId : Nat) (now : Int) : TaskRow :=
  { id := newId
    wecom_schedule_id := p.wecom_schedule_id
    title := p.title
    description := p.description
    creator_userid := p.creator_userid
    executor_userid := p.executor_userid
    owner_userid := p.owner_userid
    owner_cal_id := p.owner_cal_id
    start_time := some p.start_time
    end_time := some p.end_time
    status := STATUS_PENDING
    completion_time := none
    verify_time := none
    completed_by_userid := none
    verified_by_userid := none
    reject_reason := none
    redo_count := 0
    last_reminder_kind := none
    last_reminder_at := none
    updated_at := some now }

/-- The per-row effect of the `UPDATE tasks SET title = ?, ... WHERE
wecom_schedule_id = ?` statement of `syncScheduleTask`. -/
def syncUpdateRow (p : SyncTaskPayload) (now : Int) (t : TaskRow) : TaskRow :=
  if t.wecom_schedule_id = p.wecom_schedule_id then
    { t with
      title := p.title
      description := p.description
      creator_userid := p.creator_userid
      executor_userid := p.executor_userid
      owner_userid := p.owner_userid
      owner_cal_id := p.owner_cal_id
      start_time := some p.start_time
      end_time := some p.end_time
      updated_at := some now }
  else t

/-- Embeds `syncScheduleTask` from `sync.js` (`TaskService`), as a pure function
from the schedule, calendar context and current table to the result and
the new table. -/
def syncScheduleTask (s : Schedule) (ctx : CalendarContext) (db : List TaskRow)
    (newId : Nat) (now : Int) : SyncResult × List TaskRow :=
  let scheduleId := normalizeTextO s.schedule_id
  if scheduleId = "" then
    ({ inserted := false, updated := false, skipped := true,
       reason := some "missing_schedule_id" }, db)
  else
    let p := syncTaskPayload s ctx
    if p.creator_userid = "" ∨ p.executor_userid = "" then
      ({ inserted := false, updated := false, skipped := true,
         reason := some "missing_creator_or_executor" }, db)
    else
      match getTaskByScheduleId db scheduleId with
      | none =>
        ({ inserted := true, updated := false, skipped := false, reason := none },
         db ++ [syncInsertRow p newId now])
      | some _ =>
        ({ inserted := false, updated := true, skipped := false, reason := none },
         db.map (syncUpdateRow p now))

/-- The error taxonomy `TaskOperationError` of `sync.js`, restricted to the
codes `verifyTask` can raise. -/
inductive TaskErr where
  | notFound
  | forbidden
  | conflict
deriving DecidableEq, Repr

/-- The generic reject message `领导驳回` that `verifyTask` defaults to when
the given reason is blank. -/
def defaultRejectReason : String := "领导驳回"

/-- Embeds `normalizeText(rejectReason) || 领导驳回` from `verifyTask`. -/
def normalizedRejectReason (rejectReason : String) : String :=
  if normalizeTextS rejectReason = "" then defaultRejectReason
  else normalizeTextS rejectReason

/-- The per-row SET clause of the conditional UPDATE in `verifyTask`. -/
def verifySetRow (isApproved : Bool) (managerId reason : String) (now : Int)
    (t : TaskRow) : TaskRow :=
  if isApproved then
    { t with
      status := STATUS_COMPLETED
      verify_time := some now
      verified_by_userid := some (normalizeTextS managerId)
      reject_reason := none
      updated_at := some now }
  else
    { t with
      status := STATUS_PENDING
      verify_time := some now
      verified_by_userid := some (normalizeTextS managerId)
      reject_reason := some reason
      redo_count := t.redo_count + 1
      updated_at := some now }

/-- Does a row match `WHERE wecom_schedule_id = ? AND status = WAITING_VERIFY`. -/
def verifyWhereMatches (sid : String) (t : TaskRow) : Bool :=
  t.wecom_schedule_id = sid && t.status = STATUS_WAITING_VERIFY

/-- The conditional UPDATE of `verifyTask`: returns the number of changed rows
and the new table. -/
def verifyConditionalUpdate (db : List TaskRow) (sid : String) (isApproved : Bool)
    (managerId reason : String) (now : Int) : Nat × List TaskRow :=
  ((db.filter (verifyWhereMatches sid)).length,
   db.map (fun t =>
     if verifyWhereMatches sid t then verifySetRow isApproved managerId reason now t
     else t))

/-- The part of `verifyTask` that runs after the initial read: the permission
check against the `task` snapshot that was read, then the conditional
UPDATE against the current table (which, under concurrency, may no longer
contain the state of the snapshot), raising `Conflict` on a zero-row update. -/
def verifyTaskAttempt (task : TaskRow) (db : List TaskRow) (sid managerId : String)
    (isApproved : Bool) (rejectReason : String) (globalVerifiers : List String)
    (now : Int) : Except TaskErr (List TaskRow) :=
  if ¬ canUserVerifyTask task managerId globalVerifiers then .error .forbidden
  else
    let r := verifyConditionalUpdate db sid isApproved managerId
      (normalizedRejectReason rejectReason) now
    if r.1 = 0 then .error .conflict else .ok r.2

/-- Embeds `verifyTask` from `sync.js` (`TaskService`): read the task by schedule id,
check permission, then perform the status-guarded conditional update. -/
def verifyTask (db : List TaskRow) (sid managerId : String) (isApproved : Bool)
    (rejectReason : String) (globalVerifiers : List String) (now : Int) :
    Except TaskErr (List TaskRow) :=
  match getTaskByScheduleId db sid with
  | none => .error .notFound
  | some task =>
    verifyTaskAttempt task db sid managerId isApproved rejectReason globalVerifiers now

/-- The result object of `dispatchTaskReminder`. -/
structure ReminderResult where
  sent : Bool
  kind : String
deriving DecidableEq, Repr

/-- Does `sendExecutorActionCard` throw for this task: when the normalized
executor id is empty it returns before any platform call (a silent no-op
that cannot fail); otherwise the outbound `sendTemplateCard` call throws
exactly when the transport fails (`transportOk = false`). -/
def sendExecutorActionCardThrows (task : TaskRow) (transportOk : Bool) : Bool :=
  if normalizeTextS task.executor_userid = "" then false else !transportOk

/-- Embeds `dispatchTaskReminder` from `sync.js` (`TaskService`) as a pure function on
one task row: classify the reminder, gate on the cooldown, attempt the send
(whose failure is caught), and stamp `last_reminder_at`/`last_reminder_kind`
after a non-throwing send attempt.  Returns the result and the task row as
stored afterwards. -/
def dispatchTaskReminder (task : TaskRow) (now : Int) (transportOk : Bool) :
    ReminderResult × TaskRow :=
  let reminderKind := getReminderKind task now
  if ¬ shouldSendReminder task reminderKind now 12 then
    ({ sent := false, kind := reminderKind }, task)
  else if sendExecutorActionCardThrows task transportOk then
    ({ sent := false, kind := reminderKind }, task)
  else
    ({ sent := true, kind := reminderKind },
     { task with
       last_reminder_at := some now
       last_reminder_kind := some reminderKind
       updated_at := some now })

/-- An arbitrary input object fed to `toCalendarMappingRecord` in
`calendar-mapping.js`: the function probes these alternative property
names with JS `||` chains.  Absent properties are `none`. -/
structure MapInput where
  user_id : Option String
  userid : Option String
  userIdAlt : Option String
  user : Option String
  organizer : Option String
  cal_id : Option String
  calIdAlt : Option String
  calendar_id : Option String
  calendarIdAlt : Option String
  source : Option String
deriving DecidableEq, Repr

/-- The all-absent input object. -/
def MapInput.empty : MapInput :=
  { user_id := none, userid := none, userIdAlt := none, user := none,
    organizer := none, cal_id := none, calIdAlt := none, calendar_id := none,
    calendarIdAlt := none, source := none }

/-- A normalized calendar mapping record `{ user_id, cal_id, source }`. -/
structure CalendarTarget where
  user_id : String
  cal_id : String
  source : String
deriving DecidableEq, Repr

/-- Embeds `toCalendarMappingRecord` from `calendar-mapping.js`
(`userIdAlt`/`calIdAlt`/`calendarIdAlt` model the JS properties
`userId`/`calId`/`calendarId`). -/
def toCalendarMappingRecord (input : MapInput) (fallbackSource : String) :
    Option CalendarTarget :=
  let userId := normalizeTextO (jsOrO input.user_id (jsOrO input.userid
    (jsOrO input.userIdAlt (jsOrO input.user input.organizer))))
  let calId := normalizeTextO (jsOrO input.cal_id (jsOrO input.calIdAlt
    (jsOrO input.calendar_id input.calendarIdAlt)))
  let source :=
    if normalizeTextO input.source = "" then fallbackSource
    else normalizeTextO input.source
  if calId = "" then none
  else some { user_id := userId, cal_id := calId, source := source }

/-- View an already normalized record as an input object again (the shape in
which `calendar-mapping.js` re-feeds records through
`toCalendarMappingRecord`). -/
def recordToInput (r : CalendarTarget) : MapInput :=
  { MapInput.empty with
    user_id := some r.user_id
    cal_id := some r.cal_id
    source := some r.source }

/-- JS `Map.prototype.set` on an association list: an existing key keeps its
insertion position and gets the new value; a new key is appended. -/
def jsMapSet (m : List (String × CalendarTarget)) (k : String)
    (v : CalendarTarget) : List (String × CalendarTarget) :=
  if m.any (fun p => p.1 = k) then
    m.map (fun p => if p.1 = k then (k, v) else p)
  else m ++ [(k, v)]

/-- Embeds `mergeCalendarMappingsByUser` from `calendar-mapping.js`. -/
def mergeCalendarMappingsByUser (rows : List MapInput) : List CalendarTarget :=
  (rows.foldl (fun m row =>
    match toCalendarMappingRecord row
      (if normalizeTextO row.source = "" then "db" else normalizeTextO row.source) with
    | none => m
    | some normalized =>
      if normalized.user_id = "" then m
      else jsMapSet m normalized.user_id normalized) []).map Prod.snd

/-- The loop body of `deduplicateCalendarTargetsByCalId`: `acc` carries the
seen `cal_id` set and the kept targets. -/
def dedupStep (acc : List String × List CalendarTarget) (target : MapInput) :
    List String × List CalendarTarget :=
  match toCalendarMappingRecord target
    (if normalizeTextO target.source = "" then "default"
     else normalizeTextO target.source) with
  | none => acc
  | some normalized =>
    if acc.1.contains normalized.cal_id then acc
    else (acc.1 ++ [normalized.cal_id], acc.2 ++ [normalized])

/-- Embeds `deduplicateCalendarTargetsByCalId` from `calendar-mapping.js`: one pass
accumulating the seen `cal_id` set and the kept targets. -/
def deduplicateCalendarTargetsByCalId (targets : List MapInput) :
    List CalendarTarget :=
  (targets.foldl dedupStep ([], [])).2

/-- Split a character list at every occurrence of `sep`
(JS `String.prototype.split` with a one-character separator). -/
def splitChar (sep : Char) : List Char → List (List Char)
  | [] => [[]]
  | c :: cs =>
    let r := splitChar sep cs
    if c = sep then [] :: r
    else
      match r with
      | [] => [[c]]
      | h :: t => (c :: h) :: t

/-- First index of `c` in `l`, or `-1` when absent (JS `String.prototype.indexOf`). -/
def jsIndexOf (l : List Char) (c : Char) : Int :=
  match l with
  | [] => -1
  | x :: xs =>
    if x = c then 0
    else
      let r := jsIndexOf xs c
      if r < 0 then -1 else r + 1

/-- Embeds `parseUserCalendarMapFromPairs` from `calendar-mapping.js`: parse
`"zhangsan:cal_a,lisi:cal_b"` (or `=`-separated) pair lists. -/
def parseUserCalendarMapFromPairs (normalizedRaw : String) : List CalendarTarget :=
  ((((splitChar ',' normalizedRaw.data).map (fun item => trimChars item)).filter
      (fun item => item ≠ [])).filterMap (fun item =>
    let separatorIndex :=
      if item.contains ':' then jsIndexOf item ':' else jsIndexOf item '='
    if separatorIndex ≤ 0 then none
    else
      let userId := jsTrim ⟨item.take separatorIndex.toNat⟩
      let calId := jsTrim ⟨item.drop (separatorIndex.toNat + 1)⟩
      toCalendarMappingRecord
        { MapInput.empty with
          user_id := some userId
          cal_id := some calId
          source := some "env_map" } "env_map")).filter
    (fun r => r.user_id ≠ "")

/-- Embeds `parseUserCalendarMap` from `calendar-mapping.js`.  The JSON configuration
branch (raw values starting with `{` or `[`) is outside this model and
yields `none`; every pair-format configuration is modelled faithfully. -/
def parseUserCalendarMap (rawValue : String) : Option (List CalendarTarget) :=
  let normalizedRaw := normalizeTextS rawValue
  if h : normalizedRaw.data = [] then some []
  else if normalizedRaw.data.head h = '{' ∨ normalizedRaw.data.head h = '[' then
    none
  else
    some (mergeCalendarMappingsByUser
      ((parseUserCalendarMapFromPairs normalizedRaw).map recordToInput))

/-- Embeds `buildSyncCalendarTargets` from `calendar-mapping.js` (over the same
restricted configuration domain as `parseUserCalendarMap`). -/
def buildSyncCalendarTargets (defaultCalId userCalendarMapRaw : String)
    (userCalendarRows : List MapInput) : Option (List CalendarTarget) :=
  match parseUserCalendarMap userCalendarMapRaw with
  | none => none
  | some envMapRows =>
    let d := normalizeTextS defaultCalId
    let dbRows := mergeCalendarMappingsByUser userCalendarRows
    let mergedByUser :=
      mergeCalendarMappingsByUser ((envMapRows ++ dbRows).map recordToInput)
    let targets := deduplicateCalendarTargetsByCalId (mergedByUser.map recordToInput)
    let withDefault :=
      if d = "" then targets
      else targets ++ [{ user_id := "", cal_id := d, source := "default" }]
    some (deduplicateCalendarTargetsByCalId (withDefault.map recordToInput))

/-! ### Helper lemmas about the row-list table model -/

theorem getTaskByScheduleId_nil (sid : String) :
    getTaskByScheduleId [] sid = none := rfl

theorem getTaskByScheduleId_cons (t : TaskRow) (db : List TaskRow) (sid : String) :
    getTaskByScheduleId (t :: db) sid =
      if t.wecom_schedule_id = sid then some t else getTaskByScheduleId db sid := by
  unfold getTaskByScheduleId
  by_cases h : t.wecom_schedule_id = sid <;> simp [List.find?, h]

theorem getTaskByScheduleId_append_self (db : List TaskRow) (t : TaskRow)
    (sid : String) (h : getTaskByScheduleId db sid = none)
    (ht : t.wecom_schedule_id = sid) :
    getTaskByScheduleId (db ++ [t]) sid = some t := by
  induction db with
  | nil => simp [getTaskByScheduleId_cons, getTaskByScheduleId_nil, ht]
  | cons a l ih =>
    rw [getTaskByScheduleId_cons] at h
    by_cases ha : a.wecom_schedule_id = sid
    · simp [ha] at h
    · rw [List.cons_append, getTaskByScheduleId_cons, if_neg ha]
      exact ih (by simpa [ha] using h)

theorem getTaskByScheduleId_map (f : TaskRow → TaskRow)
    (hf : ∀ r, (f r).wecom_schedule_id = r.wecom_schedule_id)
    (db : List TaskRow) (sid : String) :
    getTaskByScheduleId (db.map f) sid = (getTaskByScheduleId db sid).map f := by
  induction db with
  | nil => simp [getTaskByScheduleId_nil]
  | cons a l ih =>
    rw [List.map_cons, getTaskByScheduleId_cons, getTaskByScheduleId_cons, hf a]
    by_cases ha : a.wecom_schedule_id = sid <;> simp [ha, ih]

theorem getTaskByScheduleId_mem {db : List TaskRow} {sid : String} {t : TaskRow}
    (h : getTaskByScheduleId db sid = some t) :
    t ∈ db ∧ t.wecom_schedule_id = sid := by
  induction db with
  | nil => simp [getTaskByScheduleId_nil] at h
  | cons a l ih =>
    rw [getTaskByScheduleId_cons] at h
    by_cases ha : a.wecom_schedule_id = sid
    · rw [if_pos ha] at h
      obtain rfl : a = t := by simpa using h
      exact ⟨List.mem_cons_self a l, ha⟩
    · rw [if_neg ha] at h
      obtain ⟨hm, hs⟩ := ih h
      exact ⟨List.mem_cons_of_mem a hm, hs⟩

theorem syncUpdateRow_key (p : SyncTaskPayload) (now : Int) (t : TaskRow) :
    (syncUpdateRow p now t).wecom_schedule_id = t.wecom_schedule_id := by
  unfold syncUpdateRow
  by_cases h : t.wecom_schedule_id = p.wecom_schedule_id <;> simp [h]

/-! ### C1: which schedules are skipped by reconciliation -/

/-- The schedule of the C1 counterexample: it has an external id, no
organizer information, and a single well-formed attendee. -/
def c1sched : Schedule :=
  { schedule_id := some "s1", summary := some "task", description := none,
    organizer := .absent, creator_userid := none,
    attendees := some [.str "alice"], attendee := none,
    start_time := some 100, end_time := some 200, cal_id := none,
    calendar_id := none }

/-- C1, counterexample.  The claim says `syncScheduleTask` skips exactly when
the schedule has no external id or when BOTH the derived creator and the
derived executor are empty.  On a schedule with an external id, an empty
derived creator but a non-empty derived executor (`"alice"`), the code
nevertheless skips (reason `missing_creator_or_executor`) and writes
nothing, refuting the claimed equivalence. -/
theorem syncScheduleTask_skip_both_counterexample :
    (syncScheduleTask c1sched ⟨none, none⟩ [] 1 0).1 =
      { inserted := false, updated := false, skipped := true,
        reason := some "missing_creator_or_executor" } ∧
    (syncScheduleTask c1sched ⟨none, none⟩ [] 1 0).2 = [] ∧
    normalizeTextO c1sched.schedule_id = "s1" ∧
    (syncTaskPayload c1sched ⟨none, none⟩).creator_userid = "" ∧
    (syncTaskPayload c1sched ⟨none, none⟩).executor_userid = "alice" := by
  decide

/-- C1, amended: `syncScheduleTask` writes no task record and returns a skip
result carrying a reason code exactly when the schedule has no external
correlation id or when the derived creator OR the derived executor is
empty; in every other case it inserts a new PENDING record (no match) or
updates the existing one (match). -/
theorem syncScheduleTask_skip_iff (s : Schedule) (ctx : CalendarContext)
    (db : List TaskRow) (newId : Nat) (now : Int) :
    ((syncScheduleTask s ctx db newId now).1.skipped = true ∧
        ((syncScheduleTask s ctx db newId now).1.reason.isSome = true) ∧
        (syncScheduleTask s ctx db newId now).2 = db ↔
      normalizeTextO s.schedule_id = "" ∨
        (syncTaskPayload s ctx).creator_userid = "" ∨
        (syncTaskPayload s ctx).executor_userid = "") ∧
    (normalizeTextO s.schedule_id ≠ "" →
      (syncTaskPayload s ctx).creator_userid ≠ "" →
      (syncTaskPayload s ctx).executor_userid ≠ "" →
      (getTaskByScheduleId db (normalizeTextO s.schedule_id) = none →
        (syncScheduleTask s ctx db newId now).1 =
          { inserted := true, updated := false, skipped := false, reason := none } ∧
        (syncScheduleTask s ctx db newId now).2 =
          db ++ [syncInsertRow (syncTaskPayload s ctx) newId now] ∧
        (syncInsertRow (syncTaskPayload s ctx) newId now).status = STATUS_PENDING) ∧
      (∀ t0, getTaskByScheduleId db (normalizeTextO s.schedule_id) = some t0 →
        (syncScheduleTask s ctx db newId now).1 =
          { inserted := false, updated := true, skipped := false, reason := none })) := by
  unfold syncScheduleTask
  by_cases hsid : normalizeTextO s.schedule_id = ""
  · simp [hsid]
  · by_cases hskip : (syncTaskPayload s ctx).creator_userid = "" ∨
        (syncTaskPayload s ctx).executor_userid = ""
    · simp only [if_neg hsid, if_pos hskip]
      constructor
      · simp [hsid, hskip]
      · intro h1 h2 h3
        exact absurd hskip (by simp [h2, h3])
    · simp only [if_neg hsid, if_neg hskip]
      constructor
      · cases hfind : getTaskByScheduleId db (normalizeTextO s.schedule_id) with
        | none => simp [hsid, hskip]
        | some t0 => simp [hsid, hskip]
      · intro h1 h2 h3
        constructor
        · intro hfind
          rw [hfind]
          simp [syncInsertRow]
        · intro t0 hfind
          rw [hfind]

/-- C1, amended, witness: on a schedule with organizer `"mgr"` and attendee
`"exec1"` against an empty table, the non-skip branch inserts a PENDING
record. -/
theorem syncScheduleTask_skip_iff_witness :
    (syncScheduleTask
        { schedule_id := some "s9", summary := some "w", description := none,
          organizer := .str "mgr", creator_userid := none,
          attendees := some [.str "exec1"], attendee := none,
          start_time := some 1, end_time := some 2, cal_id := none,
          calendar_id := none } ⟨none, none⟩ [] 7 0).1 =
      { inserted := true, updated := false, skipped := false, reason := none } :=
  (((syncScheduleTask_skip_iff
      { schedule_id := some "s9", summary := some "w", description := none,
        organizer := .str "mgr", creator_userid := none,
        attendees := some [.str "exec1"], attendee := none,
        start_time := some 1, end_time := some 2, cal_id := none,
        calendar_id := none } ⟨none, none⟩ [] 7 0).2
    (by decide) (by decide) (by decide)).1 (by decide)).1

/-! ### C2: second sync of an unchanged schedule is an in-place update -/

/-- C2: syncing a fresh external schedule inserts a PENDING row, and syncing
the same schedule again returns `{inserted:false, updated:true}` while
overwriting only the sync-owned fields (title, description, creator,
executor, owner, calendar id, start/end times, plus the `updated_at`
stamp): the stored row after the second call is the row of the first call with
exactly those fields replaced, so its status, redo count, reject reason
and reminder bookkeeping (`last_reminder_kind`, `last_reminder_at`) are
untouched. -/
theorem syncScheduleTask_second_call_updates_in_place (s : Schedule)
    (ctx : CalendarContext) (db : List TaskRow) (id1 id2 : Nat) (now1 now2 : Int)
    (hsid : normalizeTextO s.schedule_id ≠ "")
    (hcre : (syncTaskPayload s ctx).creator_userid ≠ "")
    (hexe : (syncTaskPayload s ctx).executor_userid ≠ "")
    (hnone : getTaskByScheduleId db (normalizeTextO s.schedule_id) = none) :
    (syncScheduleTask s ctx db id1 now1).1 =
      { inserted := true, updated := false, skipped := false, reason := none } ∧
    (syncScheduleTask s ctx (syncScheduleTask s ctx db id1 now1).2 id2 now2).1 =
      { inserted := false, updated := true, skipped := false, reason := none } ∧
    getTaskByScheduleId (syncScheduleTask s ctx db id1 now1).2
        (normalizeTextO s.schedule_id) =
      some (syncInsertRow (syncTaskPayload s ctx) id1 now1) ∧
    (syncInsertRow (syncTaskPayload s ctx) id1 now1).status = STATUS_PENDING ∧
    getTaskByScheduleId
        (syncScheduleTask s ctx (syncScheduleTask s ctx db id1 now1).2 id2 now2).2
        (normalizeTextO s.schedule_id) =
      some { syncInsertRow (syncTaskPayload s ctx) id1 now1 with
        title := (syncTaskPayload s ctx).title
        description := (syncTaskPayload s ctx).description
        creator_userid := (syncTaskPayload s ctx).creator_userid
        executor_userid := (syncTaskPayload s ctx).executor_userid
        owner_userid := (syncTaskPayload s ctx).owner_userid
        owner_cal_id := (syncTaskPayload s ctx).owner_cal_id
        start_time := some (syncTaskPayload s ctx).start_time
        end_time := some (syncTaskPayload s ctx).end_time
        updated_at := some now2 } := by
  have hkey : (syncInsertRow (syncTaskPayload s ctx) id1 now1).wecom_schedule_id =
      normalizeTextO s.schedule_id := by
    simp [syncInsertRow, syncTaskPayload]
  have hskip : ¬ ((syncTaskPayload s ctx).creator_userid = "" ∨
      (syncTaskPayload s ctx).executor_userid = "") := by
    simp [hcre, hexe]
  have h1 : syncScheduleTask s ctx db id1 now1 =
      ({ inserted := true, updated := false, skipped := false, reason := none },
       db ++ [syncInsertRow (syncTaskPayload s ctx) id1 now1]) := by
    unfold syncScheduleTask
    rw [if_neg hsid, if_neg hskip, hnone]
  have hfind1 : getTaskByScheduleId
      (db ++ [syncInsertRow (syncTaskPayload s ctx) id1 now1])
      (normalizeTextO s.schedule_id) =
      some (syncInsertRow (syncTaskPayload s ctx) id1 now1) :=
    getTaskByScheduleId_append_self db _ _ hnone hkey
  have h2 : syncScheduleTask s ctx
      (db ++ [syncInsertRow (syncTaskPayload s ctx) id1 now1]) id2 now2 =
      ({ inserted := false, updated := true, skipped := false, reason := none },
       (db ++ [syncInsertRow (syncTaskPayload s ctx) id1 now1]).map
         (syncUpdateRow (syncTaskPayload s ctx) now2)) := by
    unfold syncScheduleTask
    rw [if_neg hsid, if_neg hskip, hfind1]
  refine ⟨by rw [h1], ?_, ?_, rfl, ?_⟩
  · rw [h1]
    dsimp only
    rw [h2]
  · rw [h1]
    exact hfind1
  · rw [h1]
    dsimp only
    rw [h2]
    dsimp only
    rw [getTaskByScheduleId_map _ (syncUpdateRow_key _ _) _ _, hfind1]
    have hps : (syncTaskPayload s ctx).wecom_schedule_id =
        normalizeTextO s.schedule_id := rfl
    simp [syncUpdateRow, hkey, hps]

/-- C2, witness: concrete two-call run of `syncScheduleTask` on an unchanged
schedule against an empty table. -/
theorem syncScheduleTask_second_call_updates_in_place_witness :
    (syncScheduleTask
        { schedule_id := some "w2", summary := some "t", description := none,
          organizer := .str "mgr", creator_userid := none,
          attendees := some [.str "exec1"], attendee := none,
          start_time := some 1, end_time := some 2, cal_id := some "calw",
          calendar_id := none }
        ⟨some "mgr", some "calw"⟩
        (syncScheduleTask
          { schedule_id := some "w2", summary := some "t", description := none,
            organizer := .str "mgr", creator_userid := none,
            attendees := some [.str "exec1"], attendee := none,
            start_time := some 1, end_time := some 2, cal_id := some "calw",
            calendar_id := none }
          ⟨some "mgr", some "calw"⟩ [] 1 10).2 2 20).1 =
      { inserted := false, updated := true, skipped := false, reason := none } :=
  (syncScheduleTask_second_call_updates_in_place
    { schedule_id := some "w2", summary := some "t", description := none,
      organizer := .str "mgr", creator_userid := none,
      attendees := some [.str "exec1"], attendee := none,
      start_time := some 1, end_time := some 2, cal_id := some "calw",
      calendar_id := none }
    ⟨some "mgr", some "calw"⟩ [] 1 2 10 20
    (by decide) (by decide) (by decide) (by decide)).2.1

/-! ### C3: verify-reject transition and optimistic concurrency -/

theorem verifySetRow_key (a : Bool) (m r : String) (now : Int) (t : TaskRow) :
    (verifySetRow a m r now t).wecom_schedule_id = t.wecom_schedule_id := by
  unfold verifySetRow
  cases a <;> simp

theorem verifyUpdateFn_key (sid : String) (a : Bool) (m r : String) (now : Int)
    (t : TaskRow) :
    (if verifyWhereMatches sid t then verifySetRow a m r now t else t).wecom_schedule_id
      = t.wecom_schedule_id := by
  by_cases h : verifyWhereMatches sid t
  · rw [if_pos h, verifySetRow_key]
  · rw [if_neg h]

/-- C3: for a task stored in `WAITING_VERIFY` whose caller passes the
creator-or-global-verifier permission check, `verifyTask` with
`approve = false` succeeds, and the stored row afterwards is the old row
with status `PENDING`, the verify time and verifier id set, the reject
reason set to the trimmed given reason or the generic default when blank,
and the redo count incremented by exactly 1; from the same read snapshot,
an attempt against any table state in which no row matches
`WHERE wecom_schedule_id = ? AND status = WAITING_VERIFY` surfaces
`Conflict` (the zero-row-update case), and in particular any second
authorized verify attempt (approve or reject) issued against the state
the first call produced surfaces `Conflict` — of two conflicting verify
calls against the same pre-state, exactly one succeeds. -/
theorem verifyTask_reject_spec (db : List TaskRow) (t : TaskRow)
    (sid manager reason : String) (verifiers : List String) (now : Int)
    (hfind : getTaskByScheduleId db sid = some t)
    (huniq : ∀ r ∈ db, r.wecom_schedule_id = sid → r = t)
    (hstat : t.status = STATUS_WAITING_VERIFY)
    (hperm : canUserVerifyTask t manager verifiers = true) :
    (normalizedRejectReason "" = defaultRejectReason) ∧
    (∀ db2 : List TaskRow,
      (verifyTaskAttempt t db2 sid manager false reason verifiers now =
          .error .conflict ↔
        (db2.filter (verifyWhereMatches sid)).length = 0)) ∧
    ∃ db', verifyTask db sid manager false reason verifiers now = .ok db' ∧
      getTaskByScheduleId db' sid =
        some { t with
          status := STATUS_PENDING
          verify_time := some now
          verified_by_userid := some (normalizeTextS manager)
          reject_reason := some (normalizedRejectReason reason)
          redo_count := t.redo_count + 1
          updated_at := some now } ∧
      (∀ manager2 approve2 reason2 verifiers2 now2,
        canUserVerifyTask t manager2 verifiers2 = true →
        verifyTaskAttempt t db' sid manager2 approve2 reason2 verifiers2 now2 =
          .error .conflict) := by
  obtain ⟨hmem, hsid⟩ := getTaskByScheduleId_mem hfind
  have hmatch : verifyWhereMatches sid t = true := by
    simp [verifyWhereMatches, hsid, hstat]
  have hconds : ∀ db2 : List TaskRow,
      verifyTaskAttempt t db2 sid manager false reason verifiers now =
          .error .conflict ↔
        (db2.filter (verifyWhereMatches sid)).length = 0 := by
    intro db2
    unfold verifyTaskAttempt verifyConditionalUpdate
    rw [if_neg (by simp [hperm])]
    by_cases hz : (db2.filter (verifyWhereMatches sid)).length = 0
    · simp [hz]
    · simp [hz]
  refine ⟨rfl, hconds, ?_⟩
  have hchanges : (db.filter (verifyWhereMatches sid)).length ≠ 0 := by
    have ht : t ∈ db.filter (verifyWhereMatches sid) :=
      List.mem_filter.2 ⟨hmem, hmatch⟩
    intro h0
    rw [List.length_eq_zero] at h0
    rw [h0] at ht
    exact absurd ht (List.not_mem_nil t)
  have hdb' : verifyTask db sid manager false reason verifiers now =
      .ok (db.map (fun r =>
        if verifyWhereMatches sid r then
          verifySetRow false manager (normalizedRejectReason reason) now r
        else r)) := by
    simp [verifyTask, hfind, verifyTaskAttempt, verifyConditionalUpdate, hperm,
      hchanges]
  refine ⟨_, hdb', ?_, ?_⟩
  · rw [getTaskByScheduleId_map _ (verifyUpdateFn_key sid false manager
      (normalizedRejectReason reason) now) _ _, hfind]
    simp [hmatch, verifySetRow]
  · intro manager2 approve2 reason2 verifiers2 now2 hperm2
    unfold verifyTaskAttempt verifyConditionalUpdate
    rw [if_neg (by simp [hperm2])]
    have hnil : (db.map (fun r =>
        if verifyWhereMatches sid r then
          verifySetRow false manager (normalizedRejectReason reason) now r
        else r)).filter (verifyWhereMatches sid) = [] := by
      rw [List.filter_eq_nil_iff]
      intro a ha
      obtain ⟨r, hr, rfl⟩ := List.mem_map.1 ha
      by_cases hk : r.wecom_schedule_id = sid
      · have : r = t := huniq r hr hk
        subst this
        rw [if_pos hmatch]
        unfold verifySetRow
        simp [verifyWhereMatches, STATUS_PENDING, STATUS_WAITING_VERIFY]
      · have hm : verifyWhereMatches sid r = false := by
          simp [verifyWhereMatches, hk]
        rw [if_neg (by simp [hm])]
        simp [hm]
    rw [hnil]
    simp

/-- C3, witness: a concrete reject call on a `WAITING_VERIFY` task by its
creator, whose default-reason / conflict-iff conjunct is instantiated. -/
theorem verifyTask_reject_spec_witness :
    normalizedRejectReason "" = defaultRejectReason :=
  (verifyTask_reject_spec
    [{ id := 1, wecom_schedule_id := "sch-1", title := "t", description := "",
       creator_userid := "mgr", executor_userid := "exec1",
       owner_userid := "exec1", owner_cal_id := "cal-a", start_time := some 0,
       end_time := some 0, status := "WAITING_VERIFY", completion_time := none,
       verify_time := none, completed_by_userid := none,
       verified_by_userid := none, reject_reason := none, redo_count := 0,
       last_reminder_kind := none, last_reminder_at := none, updated_at := none }]
    { id := 1, wecom_schedule_id := "sch-1", title := "t", description := "",
      creator_userid := "mgr", executor_userid := "exec1",
      owner_userid := "exec1", owner_cal_id := "cal-a", start_time := some 0,
      end_time := some 0, status := "WAITING_VERIFY", completion_time := none,
      verify_time := none, completed_by_userid := none,
      verified_by_userid := none, reject_reason := none, redo_count := 0,
      last_reminder_kind := none, last_reminder_at := none, updated_at := none }
    "sch-1" "mgr" "" [] 42 (by decide) (by decide) (by decide) (by decide)).1

/-! ### C4: reminder cooldown and kind-change semantics -/

/-- C4: `shouldSendReminder` returns `false` when the classified kind is
`NONE`; returns `true` whenever no prior reminder kind is recorded or the
recorded kind differs from the classified kind (a kind change triggers
regardless of cooldown); and when the recorded kind equals the classified
kind (`DUE_SOON` or `OVERDUE`) and a last-reminder time is recorded, it
returns `true` iff `now` minus that time is at least 12 hours. -/
theorem shouldSendReminder_spec (t : TaskRow) (kind : String) (now t0 : Int) :
    shouldSendReminder t KIND_NONE now 12 = false ∧
    (kind ≠ KIND_NONE →
      (normalizeTextO t.last_reminder_kind = "" ∨
        normalizeTextO t.last_reminder_kind ≠ kind) →
      shouldSendReminder t kind now 12 = true) ∧
    ((kind = KIND_DUE_SOON ∨ kind = KIND_OVERDUE) →
      normalizeTextO t.last_reminder_kind = kind →
      toDateOrNull t.last_reminder_at = some t0 →
      (shouldSendReminder t kind now 12 = true ↔ now - t0 ≥ 12 * hourMs)) := by
  refine ⟨by simp [shouldSendReminder], ?_, ?_⟩
  · intro hk hprev
    unfold shouldSendReminder
    rw [if_neg hk, if_pos hprev]
  · intro hkind hprev hat
    have hk : kind ≠ KIND_NONE := by
      rcases hkind with h | h <;> subst h <;> decide
    have hne : ¬ (normalizeTextO t.last_reminder_kind = "" ∨
        normalizeTextO t.last_reminder_kind ≠ kind) := by
      rw [hprev]
      rcases hkind with h | h <;> subst h <;> decide
    unfold shouldSendReminder
    rw [if_neg hk, if_neg hne, hat]
    simp

/-- C4, witness: with kind `DUE_SOON` last stamped at time 0, the reminder is
suppressed 11 hours later and triggers again 12 hours later. -/
theorem shouldSendReminder_spec_witness :
    shouldSendReminder
        { id := 1, wecom_schedule_id := "sch-1", title := "t", description := "",
          creator_userid := "mgr", executor_userid := "exec1",
          owner_userid := "exec1", owner_cal_id := "cal-a", start_time := some 0,
          end_time := some (2 * hourMs), status := "PENDING",
          completion_time := none, verify_time := none,
          completed_by_userid := none, verified_by_userid := none,
          reject_reason := none, redo_count := 0,
          last_reminder_kind := some "DUE_SOON", last_reminder_at := some 0,
          updated_at := none }
        "DUE_SOON" (12 * hourMs) 12 = true :=
  ((shouldSendReminder_spec
    { id := 1, wecom_schedule_id := "sch-1", title := "t", description := "",
      creator_userid := "mgr", executor_userid := "exec1",
      owner_userid := "exec1", owner_cal_id := "cal-a", start_time := some 0,
      end_time := some (2 * hourMs), status := "PENDING",
      completion_time := none, verify_time := none,
      completed_by_userid := none, verified_by_userid := none,
      reject_reason := none, redo_count := 0,
      last_reminder_kind := some "DUE_SOON", last_reminder_at := some 0,
      updated_at := none }
    "DUE_SOON" (12 * hourMs) 0).2.2 (Or.inl rfl) (by decide) (by decide)).2
    (by decide)

/-! ### C5: empty-executor reminder send is a no-op, but bookkeeping is stamped -/

/-- The task of the C5 counterexample: PENDING, one hour overdue, no prior
reminder, and an empty executor id. -/
def c5row : TaskRow :=
  { id := 1, wecom_schedule_id := "sch-1", title := "t", description := "",
    creator_userid := "mgr", executor_userid := "", owner_userid := "exec1",
    owner_cal_id := "cal-a", start_time := some 0, end_time := some (-hourMs),
    status := "PENDING", completion_time := none, verify_time := none,
    completed_by_userid := none, verified_by_userid := none,
    reject_reason := none, redo_count := 0, last_reminder_kind := none,
    last_reminder_at := none, updated_at := none }

/-- C5, counterexample.  The claim says that for a send-eligible reminder on a
task with an empty executor id, the reminder bookkeeping fields are left
unchanged and the attempt is treated as a skip.  On `c5row` (eligible:
kind `OVERDUE`, cooldown passed; executor empty) the code instead stamps
`last_reminder_kind`/`last_reminder_at` and reports `sent := true`. -/
theorem dispatchTaskReminder_empty_executor_counterexample :
    normalizeTextS c5row.executor_userid = "" ∧
    getReminderKind c5row 0 = KIND_OVERDUE ∧
    shouldSendReminder c5row (getReminderKind c5row 0) 0 12 = true ∧
    c5row.last_reminder_kind = none ∧
    c5row.last_reminder_at = none ∧
    (dispatchTaskReminder c5row 0 true).1.sent = true ∧
    (dispatchTaskReminder c5row 0 true).2.last_reminder_kind = some KIND_OVERDUE ∧
    (dispatchTaskReminder c5row 0 true).2.last_reminder_at = some 0 := by
  decide

/-- C5, amended: when `dispatchTaskReminder` computes a send-eligible reminder
for a task whose executor id is empty, the outbound send is a silent no-op
(no platform call is made, so it cannot fail), but the attempt is still
counted as sent: the fields `last_reminder_kind` and `last_reminder_at`
are stamped with the classified kind and the current time, and the result
is `{sent:true}`. -/
theorem dispatchTaskReminder_empty_executor_stamps (t : TaskRow) (now : Int)
    (transportOk : Bool)
    (hexec : normalizeTextS t.executor_userid = "")
    (helig : shouldSendReminder t (getReminderKind t now) now 12 = true) :
    dispatchTaskReminder t now transportOk =
      ({ sent := true, kind := getReminderKind t now },
       { t with
         last_reminder_at := some now
         last_reminder_kind := some (getReminderKind t now)
         updated_at := some now }) := by
  unfold dispatchTaskReminder
  rw [if_neg (by simp [helig])]
  rw [if_neg (by simp [sendExecutorActionCardThrows, hexec])]

/-- C5, amended, witness: the concrete eligible empty-executor task is stamped
and reported sent. -/
theorem dispatchTaskReminder_empty_executor_stamps_witness :
    dispatchTaskReminder c5row 0 true =
      ({ sent := true, kind := getReminderKind c5row 0 },
       { c5row with
         last_reminder_at := some 0
         last_reminder_kind := some (getReminderKind c5row 0)
         updated_at := some 0 }) :=
  dispatchTaskReminder_empty_executor_stamps c5row 0 true (by decide) (by decide)

/-! ### C10: no reminder activity for non-PENDING or time-less tasks -/

/-- C10: for a task whose status is not `PENDING` (after normalization) or
whose end time is absent/unparseable, `getReminderKind` classifies `NONE`,
`shouldSendReminder` is `false` for kind `NONE`, and
`dispatchTaskReminder` returns `{sent:false}` leaving the task unchanged
(no reminder bookkeeping update). -/
theorem dispatchTaskReminder_noop_spec (t : TaskRow) (now : Int)
    (transportOk : Bool)
    (h : normalizeTextS t.status ≠ STATUS_PENDING ∨ toDateOrNull t.end_time = none) :
    getReminderKind t now = KIND_NONE ∧
    shouldSendReminder t KIND_NONE now 12 = false ∧
    dispatchTaskReminder t now transportOk =
      ({ sent := false, kind := KIND_NONE }, t) := by
  have hkind : getReminderKind t now = KIND_NONE := by
    unfold getReminderKind
    rcases h with h | h
    · rw [if_pos h]
    · rw [h]
      by_cases hs : normalizeTextS t.status ≠ STATUS_PENDING
      · rw [if_pos hs]
      · rw [if_neg hs]
  have hsend : shouldSendReminder t KIND_NONE now 12 = false := by
    simp [shouldSendReminder]
  refine ⟨hkind, hsend, ?_⟩
  unfold dispatchTaskReminder
  rw [hkind]
  rw [if_pos (by simp [hsend])]

/-- C10, witness: a COMPLETED task with a past end time gets no reminder and
no bookkeeping update. -/
theorem dispatchTaskReminder_noop_spec_witness :
    dispatchTaskReminder
        { id := 1, wecom_schedule_id := "sch-1", title := "t", description := "",
          creator_userid := "mgr", executor_userid := "exec1",
          owner_userid := "exec1", owner_cal_id := "cal-a", start_time := some 0,
          end_time := some (-hourMs), status := "COMPLETED",
          completion_time := none, verify_time := none,
          completed_by_userid := none, verified_by_userid := none,
          reject_reason := none, redo_count := 0, last_reminder_kind := none,
          last_reminder_at := none, updated_at := none }
        0 true =
      ({ sent := false, kind := KIND_NONE },
       { id := 1, wecom_schedule_id := "sch-1", title := "t", description := "",
         creator_userid := "mgr", executor_userid := "exec1",
         owner_userid := "exec1", owner_cal_id := "cal-a", start_time := some 0,
         end_time := some (-hourMs), status := "COMPLETED",
         completion_time := none, verify_time := none,
         completed_by_userid := none, verified_by_userid := none,
         reject_reason := none, redo_count := 0, last_reminder_kind := none,
         last_reminder_at := none, updated_at := none }) :=
  (dispatchTaskReminder_noop_spec
    { id := 1, wecom_schedule_id := "sch-1", title := "t", description := "",
      creator_userid := "mgr", executor_userid := "exec1",
      owner_userid := "exec1", owner_cal_id := "cal-a", start_time := some 0,
      end_time := some (-hourMs), status := "COMPLETED",
      completion_time := none, verify_time := none,
      completed_by_userid := none, verified_by_userid := none,
      reject_reason := none, redo_count := 0, last_reminder_kind := none,
      last_reminder_at := none, updated_at := none }
    0 true (Or.inl (by decide))).2.2

/-! ### C6: KPI aggregation -/

theorem buildTaskKpi_completion_rate_eq (rows : List TaskRow) (now : Int) :
    (buildTaskKpi rows now).completion_rate =
      if rows.length > 0 then
        round2
          (((rows.filter (fun t => normalizeTextS t.status = STATUS_COMPLETED)).length : ℚ)
            / (rows.length : ℚ) * 100)
      else 0 := rfl

theorem buildTaskKpi_on_time_rate_eq (rows : List TaskRow) (now : Int) :
    (buildTaskKpi rows now).on_time_rate =
      if (rows.filter (fun t => normalizeTextS t.status = STATUS_COMPLETED)).length > 0 then
        round2
          (((rows.filter (fun t =>
              if normalizeTextS t.status ≠ STATUS_COMPLETED then false
              else
                match toDateOrNull (buildTaskKpi.jsOrTime t.completion_time t.verify_time),
                      toDateOrNull t.end_time with
                | some completionTime, some endTime => decide (completionTime ≤ endTime)
                | _, _ => false)).length : ℚ)
            / ((rows.filter (fun t => normalizeTextS t.status = STATUS_COMPLETED)).length : ℚ)
            * 100)
      else 0 := rfl

/-- KPI scenario row: PENDING, due in 8 hours. -/
def kpiRow1 : TaskRow :=
  { id := 1, wecom_schedule_id := "k1", title := "t", description := "",
    creator_userid := "mgr", executor_userid := "exec1", owner_userid := "exec1",
    owner_cal_id := "cal-a", start_time := some 0, end_time := some (8 * hourMs),
    status := "PENDING", completion_time := none, verify_time := none,
    completed_by_userid := none, verified_by_userid := none,
    reject_reason := none, redo_count := 0, last_reminder_kind := none,
    last_reminder_at := none, updated_at := none }

/-- KPI scenario row: WAITING_VERIFY, one hour overdue. -/
def kpiRow2 : TaskRow :=
  { kpiRow1 with
    id := 2
    wecom_schedule_id := "k2"
    status := "WAITING_VERIFY"
    end_time := some (-hourMs) }

/-- KPI scenario row: COMPLETED at -3h against an end time of -2h (on time). -/
def kpiRow3 : TaskRow :=
  { kpiRow1 with
    id := 3
    wecom_schedule_id := "k3"
    status := "COMPLETED"
    end_time := some (-2 * hourMs)
    completion_time := some (-3 * hourMs) }

/-- KPI fallback row: COMPLETED with no completion timestamp; the verify
timestamp -3h (≤ end time -2h) must be used instead. -/
def kpiRow4 : TaskRow :=
  { kpiRow1 with
    id := 4
    wecom_schedule_id := "k4"
    status := "COMPLETED"
    end_time := some (-2 * hourMs)
    verify_time := some (-3 * hourMs) }

/-- KPI late row: COMPLETED at -1h against an end time of -2h (late). -/
def kpiRow5 : TaskRow :=
  { kpiRow1 with
    id := 5
    wecom_schedule_id := "k5"
    status := "COMPLETED"
    end_time := some (-2 * hourMs)
    completion_time := some (-hourMs) }

/-- C6: the KPI aggregation computes the claimed rates.  On the boundary
scenario `[PENDING end=+8h, WAITING_VERIFY end=-1h, COMPLETED end=-2h
completion=-3h]` at `now = 0` it yields totals `3/1/1/1/1` with a
completion rate of 33.33 and an on-time rate of 100; with no tasks both
rates are 0 (the `total = 0` and `completed = 0` guards); a COMPLETED
task with no completion timestamp falls back to its verify timestamp for
the on-time comparison; and a completion after the end time is not
counted on-time. -/
theorem buildTaskKpi_spec :
    buildTaskKpi [kpiRow1, kpiRow2, kpiRow3] 0 =
      { total_tasks := 3, completed_tasks := 1, waiting_verify_tasks := 1,
        overdue_tasks := 1, due_soon_tasks := 1,
        completion_rate := 3333 / 100, on_time_rate := 100 } ∧
    (buildTaskKpi [] 0).completion_rate = 0 ∧
    (buildTaskKpi [] 0).on_time_rate = 0 ∧
    (buildTaskKpi [kpiRow1] 0).on_time_rate = 0 ∧
    (buildTaskKpi [kpiRow4] 0).on_time_rate = 100 ∧
    (buildTaskKpi [kpiRow5] 0).on_time_rate = 0 := by
  refine ⟨?_, rfl, rfl, ?_, ?_, ?_⟩
  · have h1 : (buildTaskKpi [kpiRow1, kpiRow2, kpiRow3] 0).total_tasks = 3 := by
      decide
    have h2 : (buildTaskKpi [kpiRow1, kpiRow2, kpiRow3] 0).completed_tasks = 1 := by
      decide
    have h3 : (buildTaskKpi [kpiRow1, kpiRow2, kpiRow3] 0).waiting_verify_tasks = 1 := by
      decide
    have h4 : (buildTaskKpi [kpiRow1, kpiRow2, kpiRow3] 0).overdue_tasks = 1 := by
      decide
    have h5 : (buildTaskKpi [kpiRow1, kpiRow2, kpiRow3] 0).due_soon_tasks = 1 := by
      decide
    have h6 : (buildTaskKpi [kpiRow1, kpiRow2, kpiRow3] 0).completion_rate =
        3333 / 100 := by
      rw [buildTaskKpi_completion_rate_eq]
      rw [show ([kpiRow1, kpiRow2, kpiRow3].filter
        (fun t => normalizeTextS t.status = STATUS_COMPLETED)).length = 1 from by decide]
      rw [show ([kpiRow1, kpiRow2, kpiRow3] : List TaskRow).length = 3 from rfl]
      rw [if_pos (by decide)]
      unfold round2
      norm_num
    have h7 : (buildTaskKpi [kpiRow1, kpiRow2, kpiRow3] 0).on_time_rate = 100 := by
      rw [buildTaskKpi_on_time_rate_eq]
      rw [show ([kpiRow1, kpiRow2, kpiRow3].filter
        (fun t => normalizeTextS t.status = STATUS_COMPLETED)).length = 1 from by decide]
      rw [show ([kpiRow1, kpiRow2, kpiRow3].filter (fun t =>
          if normalizeTextS t.status ≠ STATUS_COMPLETED then false
          else
            match toDateOrNull (buildTaskKpi.jsOrTime t.completion_time t.verify_time),
                  toDateOrNull t.end_time with
            | some completionTime, some endTime => decide (completionTime ≤ endTime)
            | _, _ => false)).length = 1 from by decide]
      rw [if_pos (by decide)]
      unfold round2
      norm_num
    calc buildTaskKpi [kpiRow1, kpiRow2, kpiRow3] 0
        = { total_tasks := (buildTaskKpi [kpiRow1, kpiRow2, kpiRow3] 0).total_tasks,
            completed_tasks := (buildTaskKpi [kpiRow1, kpiRow2, kpiRow3] 0).completed_tasks,
            waiting_verify_tasks :=
              (buildTaskKpi [kpiRow1, kpiRow2, kpiRow3] 0).waiting_verify_tasks,
            overdue_tasks := (buildTaskKpi [kpiRow1, kpiRow2, kpiRow3] 0).overdue_tasks,
            due_soon_tasks := (buildTaskKpi [kpiRow1, kpiRow2, kpiRow3] 0).due_soon_tasks,
            completion_rate := (buildTaskKpi [kpiRow1, kpiRow2, kpiRow3] 0).completion_rate,
            on_time_rate := (buildTaskKpi [kpiRow1, kpiRow2, kpiRow3] 0).on_time_rate } := rfl
      _ = _ := by rw [h1, h2, h3, h4, h5, h6, h7]
  · rw [buildTaskKpi_on_time_rate_eq]
    rw [show ([kpiRow1].filter
      (fun t => normalizeTextS t.status = STATUS_COMPLETED)).length = 0 from by decide]
    simp
  · rw [buildTaskKpi_on_time_rate_eq]
    rw [show ([kpiRow4].filter
      (fun t => normalizeTextS t.status = STATUS_COMPLETED)).length = 1 from by decide]
    rw [show ([kpiRow4].filter (fun t =>
        if normalizeTextS t.status ≠ STATUS_COMPLETED then false
        else
          match toDateOrNull (buildTaskKpi.jsOrTime t.completion_time t.verify_time),
                toDateOrNull t.end_time with
          | some completionTime, some endTime => decide (completionTime ≤ endTime)
          | _, _ => false)).length = 1 from by decide]
    rw [if_pos (by decide)]
    unfold round2
    norm_num
  · rw [buildTaskKpi_on_time_rate_eq]
    rw [show ([kpiRow5].filter
      (fun t => normalizeTextS t.status = STATUS_COMPLETED)).length = 1 from by decide]
    rw [show ([kpiRow5].filter (fun t =>
        if normalizeTextS t.status ≠ STATUS_COMPLETED then false
        else
          match toDateOrNull (buildTaskKpi.jsOrTime t.completion_time t.verify_time),
                toDateOrNull t.end_time with
          | some completionTime, some endTime => decide (completionTime ≤ endTime)
          | _, _ => false)).length = 0 from by decide]
    rw [if_pos (by decide)]
    unfold round2
    norm_num

/-! ### C8: executor picking -/

/-- The schedule of the C8 scenario: organizer `"mgr"`, attendees
`["mgr", "exec1"]`. -/
def c8sched : Schedule :=
  { schedule_id := some "s8", summary := some "t", description := none,
    organizer := .str "mgr", creator_userid := none,
    attendees := some [.str "mgr", .str "exec1"], attendee := none,
    start_time := some 1, end_time := some 2, cal_id := none,
    calendar_id := none }

/-- C8: the derived executor is the first listed attendee whose normalized id
differs from the organizer, else the first attendee, else the organizer;
in particular, with organizer `"mgr"` and attendees `["mgr","exec1"]` the
resolved executor is `"exec1"`. -/
theorem pickExecutor_spec :
    (∀ s : Schedule,
      pickExecutor s =
        ((attendeeUserIds s).find? (fun x => x ≠ organizerString s)).getD
          (((attendeeUserIds s).head?).getD (organizerString s))) ∧
    organizerString c8sched = "mgr" ∧
    attendeeUserIds c8sched = ["mgr", "exec1"] ∧
    pickExecutor c8sched = "exec1" := by
  refine ⟨?_, by decide, by decide, by decide⟩
  intro s
  have hdef : pickExecutor s =
      (match (attendeeUserIds s).find? (fun x => x ≠ organizerString s) with
        | some p => p
        | none =>
          match (attendeeUserIds s).head? with
          | some h => h
          | none => organizerString s) := rfl
  rw [hdef]
  cases hf : (attendeeUserIds s).find? (fun x => x ≠ organizerString s) with
  | some p => rfl
  | none =>
    cases hh : (attendeeUserIds s).head? with
    | some h => rfl
    | none => rfl

/-! ### C9: a task is never simultaneously completable and verifiable -/

/-- C9: `mapTaskRowToApi` never sets both `can_complete` and `can_verify`:
`canUserCompleteTask` requires the normalized status to be `PENDING`
while `canUserVerifyTask` requires it to be `WAITING_VERIFY`, and the
status cannot be both. -/
theorem mapTaskRowToApi_exclusive (row : TaskRow) (now : Int)
    (currentUserId : String) (globalVerifiers : List String) :
    ((mapTaskRowToApi row now currentUserId globalVerifiers).can_complete &&
      (mapTaskRowToApi row now currentUserId globalVerifiers).can_verify) = false := by
  unfold mapTaskRowToApi
  dsimp only
  by_cases hs : normalizeTextS row.status = STATUS_PENDING
  · have hv : canUserVerifyTask row (normalizeTextS currentUserId) globalVerifiers
        = false := by
      unfold canUserVerifyTask
      rw [if_pos (Or.inr (by rw [hs]; decide))]
    rw [hv, Bool.and_false]
  · have hc : canUserCompleteTask row (normalizeTextS currentUserId) = false := by
      unfold canUserCompleteTask
      simp [hs]
    rw [hc, Bool.false_and]

/-! ### C7: calendar target deduplication by calendar id -/

theorem dedup_fold_invariant (targets : List MapInput) :
    ∀ (seen : List String) (kept : List CalendarTarget),
      kept.map (fun r => r.cal_id) = seen →
      ((targets.foldl dedupStep (seen, kept)).2.map (fun r => r.cal_id) =
          (targets.foldl dedupStep (seen, kept)).1) ∧
      (seen.Nodup → (targets.foldl dedupStep (seen, kept)).1.Nodup) := by
  induction targets with
  | nil => intro seen kept hinv; exact ⟨hinv, fun h => h⟩
  | cons a l ih =>
    intro seen kept hinv
    rw [List.foldl_cons]
    unfold dedupStep
    cases toCalendarMappingRecord a
      (if normalizeTextO a.source = "" then "default"
       else normalizeTextO a.source) with
    | none => exact ih seen kept hinv
    | some r =>
      dsimp only
      by_cases hc : seen.contains r.cal_id
      · rw [if_pos hc]
        exact ih seen kept hinv
      · rw [if_neg hc]
        have hmem : r.cal_id ∉ seen := by
          intro hm
          exact hc (List.elem_eq_true_of_mem hm)
        have hinv' : (kept ++ [r]).map (fun x => x.cal_id) = seen ++ [r.cal_id] := by
          rw [List.map_append, hinv]
          rfl
        refine ⟨(ih _ _ hinv').1, fun hnd => (ih _ _ hinv').2 ?_⟩
        refine List.Nodup.append hnd (List.nodup_singleton _) ?_
        intro x hx hx'
        obtain rfl : x = r.cal_id := by simpa using hx'
        exact hmem hx

/-- C7: `deduplicateCalendarTargetsByCalId` keeps at most one target per
calendar id (the first-encountered one), and `buildSyncCalendarTargets`
therefore returns exactly one target for a calendar that two users are
both mapped to; a configured default calendar id is appended as one
default-source target with an empty user id and deduplicated against the
per-user targets. -/
theorem buildSyncCalendarTargets_dedup_spec :
    (∀ targets : List MapInput,
      ((deduplicateCalendarTargetsByCalId targets).map (fun r => r.cal_id)).Nodup) ∧
    buildSyncCalendarTargets "" "A:X,B:X" [] =
      some [{ user_id := "A", cal_id := "X", source := "env_map" }] ∧
    buildSyncCalendarTargets "D" "A:X,B:X" [] =
      some [{ user_id := "A", cal_id := "X", source := "env_map" },
        { user_id := "", cal_id := "D", source := "default" }] ∧
    buildSyncCalendarTargets "X" "A:X,B:X" [] =
      some [{ user_id := "A", cal_id := "X", source := "env_map" }] := by
  refine ⟨?_, by decide, by decide, by decide⟩
  intro targets
  obtain ⟨heq, hnd⟩ := dedup_fold_invariant targets [] [] rfl
  unfold deduplicateCalendarTargetsByCalId
  rw [heq]
  exact hnd List.nodup_nil

end WecomTaskBot
